import Mathlib

/-!
Verification development for the Intelligent Document Analysis System backend.

The embedding below models, shallowly and executably, the parts of the code
that the spec claims talk about:
  - document_processor.chunk_text (offset-aware chunking with
    sentence-boundary snapping),
  - vector_store.search_similar_chunks (distance-to-similarity conversion
    and result formatting; the embedding model and the nearest-neighbor
    index itself are external collaborators, modelled as oracles),
  - rag_service.process_document, ask_question, compare_documents,
    get_chat_history and clear_chat_history (state passing over the
    in-memory documents_store and chat_history maps, with external calls
    modelled as oracle parameters whose Except value records whether the
    call raised).

Python strings are modelled as List Char; Python dicts keyed by document id
are modelled as association lists.  Wall-clock timestamps (datetime.now)
are not modelled; the response_time field is threaded through as a given
rational elapsed value.  Chunk metadata dictionaries are modelled only up
to the fields the claims mention.
-/

namespace IDAS

/-- Python str whitespace predicate used by str.strip and str.split. -/
def isPySpace (c : Char) : Bool :=
  c == ' ' || c == '\t' || c == '\n' || c == '\r' || c == '\x0b' || c == '\x0c'

/-- Python str.strip with no argument: remove leading and trailing whitespace. -/
def pyStrip (s : List Char) : List Char :=
  ((s.dropWhile isPySpace).reverse.dropWhile isPySpace).reverse

/-- Python slice text[a:b] for 0 <= a, b (indices clamp to the length). -/
def pySlice (t : List Char) (a b : Nat) : List Char :=
  (t.drop a).take (b - a)

/-- Number of words of Python str.split with no argument: maximal runs of
non-whitespace characters. -/
def pyWordCount (t : List Char) : Nat :=
  ((t.splitOnP isPySpace).filter (fun w => !w.isEmpty)).length

/-- Whether the substring sub occurs in t starting exactly at position i. -/
def matchesAt (t sub : List Char) (i : Nat) : Bool :=
  pySlice t i (i + sub.length) == sub

/-- Candidate positions of an occurrence of sub fitting inside [lo, hi),
in increasing order. -/
def rfindCandidates (t sub : List Char) (lo hi : Nat) : List Nat :=
  (List.range (hi + 1)).filter
    (fun i => decide (lo ≤ i) && decide (i + sub.length ≤ hi) && matchesAt t sub i)

/-- Python text.rfind(sub, lo, hi): the largest position i with lo <= i,
i + len(sub) <= hi and an occurrence of sub at i, or -1 when there is none. -/
def pyRfind (t sub : List Char) (lo hi : Nat) : Int :=
  match (rfindCandidates t sub lo hi).getLast? with
  | some i => (i : Int)
  | none => -1

/-- One text chunk as produced by document_processor.chunk_text.  The
per-chunk metadata dictionary (filename, total_chunks, chunk_size) is not
modelled; no claim mentions it. -/
structure Chunk where
  content : List Char
  chunk_index : Nat
  start_char : Nat
  end_char : Nat
deriving DecidableEq, Repr

/-- Sentence terminators searched for before cutting a window. -/
def sentence_endings : List (List Char) := [['.'], ['!'], ['?'], ['\n', '\n']]

/-- Right-most sentence terminator position in text[search_start:end_pos],
as the running maximum (initialised to -1) over the four endings, exactly
as the for-loop in chunk_text computes best_break. -/
def bestBreak (text : List Char) (search_start end_pos : Nat) : Int :=
  sentence_endings.foldl (fun acc e => max acc (pyRfind text e search_start end_pos)) (-1)

/-- End position of the window starting at start_pos: min(start+size, len),
snapped back to just after the right-most sentence terminator found in the
last 100 characters of the window, when that terminator lies strictly after
start_pos. -/
def cutEnd (text : List Char) (start_pos chunk_size : Nat) : Nat :=
  let tl := text.length
  let e := min (start_pos + chunk_size) tl
  if e < tl then
    let search_start := max (e - 100) start_pos
    let bb := bestBreak text search_start e
    if bb > (start_pos : Int) then bb.toNat + 1 else e
  else e

/-- The while-loop of chunk_text, with fuel.  Each iteration either emits
the stripped window slice (when non-empty) or skips it, then advances the
start position to max(start + chunk_size - chunk_overlap, end_pos).  For
chunk_size >= 1 each iteration advances the start by at least one, so fuel
text.length makes the fueled loop exhaust exactly like the source loop. -/
def chunkLoop (text : List Char) (chunk_size chunk_overlap : Nat) :
    Nat → Nat → Nat → List Chunk
  | 0, _, _ => []
  | fuel + 1, start_pos, chunk_index =>
    if start_pos < text.length then
      let end_pos := cutEnd text start_pos chunk_size
      let chunk_content := pyStrip (pySlice text start_pos end_pos)
      let next := max (start_pos + chunk_size - chunk_overlap) end_pos
      if chunk_content.isEmpty then
        chunkLoop text chunk_size chunk_overlap fuel next chunk_index
      else
        { content := chunk_content, chunk_index := chunk_index,
          start_char := start_pos, end_char := end_pos } ::
          chunkLoop text chunk_size chunk_overlap fuel next (chunk_index + 1)
    else []

/-- Value of settings.chunk_size in app.core.config. -/
def settings_chunk_size : Nat := 1000

/-- Value of settings.chunk_overlap in app.core.config. -/
def settings_chunk_overlap : Nat := 200

/-- document_processor.chunk_text: one whole-text chunk when the text fits
in one window, otherwise the sliding-window loop.  The filename argument
only feeds the unmodelled metadata dictionary and is omitted. -/
def chunk_text (text : List Char) (chunk_size chunk_overlap : Nat) : List Chunk :=
  if text.length ≤ chunk_size then
    [{ content := text, chunk_index := 0, start_char := 0, end_char := text.length }]
  else chunkLoop text chunk_size chunk_overlap text.length 0 0

/-- One row of a ChromaDB query result, as consumed by
vector_store.search_similar_chunks: the stored chunk content, the metadata
fields the service reads back, and the reported distance.  Distances are
modelled as rationals. -/
structure QueryRow where
  content : List Char
  document_id : String
  filename : String
  chunk_index : Nat
  page_number : Option Nat
  distance : ℚ
deriving DecidableEq

/-- One formatted chunk as returned by search_similar_chunks. -/
structure RetrievedChunk where
  content : List Char
  document_id : String
  filename : String
  chunk_index : Nat
  page_number : Option Nat
  similarity_score : ℚ
deriving DecidableEq

/-- The per-row formatting step of search_similar_chunks: copy the stored
fields and convert the reported distance to a similarity score via
1 - distance. -/
def formatChunk (r : QueryRow) : RetrievedChunk :=
  { content := r.content, document_id := r.document_id, filename := r.filename,
    chunk_index := r.chunk_index, page_number := r.page_number,
    similarity_score := 1 - r.distance }

/-- The where-clause computation of search_similar_chunks: None unless a
non-empty list of document ids is given (Python truthiness of the optional
list argument). -/
def where_clause : Option (List String) → Option (List String)
  | none => none
  | some ids => if ids.isEmpty then none else some ids

/-- vector_store.search_similar_chunks.  The embedding model and the
ChromaDB collection.query call are external collaborators, modelled as the
oracle queryExec from the computed where-clause to either the returned rows
or a raised exception; the surrounding try/except turns any raise into an
empty result list. -/
def search_similar_chunks
    (queryExec : Option (List String) → Except String (List QueryRow))
    (document_ids : Option (List String)) : List RetrievedChunk :=
  match queryExec (where_clause document_ids) with
  | .error _ => []
  | .ok rows => rows.map formatChunk

/-- One source attribution of a chat answer (app.models.chat.ChatSource). -/
structure ChatSource where
  document_id : String
  document_name : String
  page_number : Option Nat
  chunk_text : List Char
  relevance_score : ℚ
deriving DecidableEq

/-- One answer object (app.models.chat.ChatResponse).  The timestamp field
(datetime.now) is not modelled; response_time is threaded through as a
given elapsed rational. -/
structure ChatResponse where
  question : String
  answer : String
  sources : List ChatSource
  response_time : ℚ
  document_ids : List String
deriving DecidableEq

/-- Registered document metadata (app.models.document.DocumentResponse).
The upload_date field (datetime.now) is not modelled. -/
structure DocumentResponse where
  id : String
  filename : String
  content_type : String
  size : Nat
  page_count : Option Nat
  word_count : Nat
  status : String
deriving DecidableEq

/-- One documents_store entry of RAGService. -/
structure StoredDoc where
  document : DocumentResponse
  file_path : String
  text : List Char
  chunks_count : Nat
deriving DecidableEq

/-- The mutable state of RAGService: the in-memory documents_store and
chat_history dictionaries, modelled as association lists keyed by document
id. -/
structure RAGState where
  documents_store : List (String × StoredDoc)
  chat_history : List (String × List ChatResponse)
deriving DecidableEq

/-- rag_service.process_document.  The file save, text extraction and
vector insert are external steps, modelled by the given file path, the
extracted text with its metadata fields, and the Boolean insert outcome of
vector_store.add_document_chunks; chunking is the chunk_text model at the
settings defaults.  Each failure check re-raises and the outer except turns
the raise into a hard error, leaving the state untouched. -/
def process_document (st : RAGState) (document_id file_path : String)
    (filename content_type : String) (file_size : Nat) (text : List Char)
    (meta_page_count meta_word_count : Option Nat) (insertOk : Bool) :
    Except String DocumentResponse × RAGState :=
  if text.isEmpty then
    (.error "Document processing failed: Failed to extract text from document", st)
  else
    let chunks := chunk_text text settings_chunk_size settings_chunk_overlap
    if chunks.isEmpty then
      (.error "Document processing failed: Failed to create text chunks", st)
    else if insertOk = false then
      (.error "Document processing failed: Failed to store document in vector database", st)
    else
      let doc : DocumentResponse :=
        { id := document_id, filename := filename, content_type := content_type,
          size := file_size, page_count := meta_page_count,
          word_count := meta_word_count.getD (pyWordCount text), status := "processed" }
      (.ok doc,
        { st with documents_store := st.documents_store ++
            [(document_id,
              { document := doc, file_path := file_path, text := text,
                chunks_count := chunks.length })] })

/-- The excerpt capping of ask_question: content truncated to 200
characters with an ellipsis marker when longer. -/
def excerpt (c : List Char) : List Char :=
  if c.length > 200 then c.take 200 ++ ['.', '.', '.'] else c

/-- The ChatSource built by ask_question for one retrieved chunk. -/
def mkSource (c : RetrievedChunk) : ChatSource :=
  { document_id := c.document_id, document_name := c.filename,
    page_number := c.page_number, chunk_text := excerpt c.content,
    relevance_score := c.similarity_score }

/-- The context string ask_question submits to the completion service:
per-chunk blocks joined by the delimiter. -/
def contextOf (chunks : List RetrievedChunk) : List Char :=
  List.intercalate "\n\n---\n\n".toList
    (chunks.map (fun c => "From ".toList ++ c.filename.toList ++ ":\n".toList ++ c.content))

/-- Appending one exchange to the history list of one document id,
creating the entry when absent (the dict-setdefault pattern of
ask_question). -/
def historyAppend (h : List (String × List ChatResponse)) (id : String)
    (r : ChatResponse) : List (String × List ChatResponse) :=
  if h.any (fun p => p.1 == id) then
    h.map (fun p => if p.1 == id then (p.1, p.2 ++ [r]) else p)
  else h ++ [(id, [r])]

/-- rag_service.ask_question.  The call to
vector_store.search_similar_chunks is modelled by the oracle searchCall
applied to the document-id scope (an Except error represents an exception
escaping that call) and the call to gemini_service.generate_response by the
oracle completion applied to the built context.  The outer try/except makes
the function total: every failure is converted into a ChatResponse. -/
def ask_question (question : String) (document_ids : Option (List String))
    (searchCall : Option (List String) → Except String (List RetrievedChunk))
    (completion : List Char → Except String String)
    (elapsed : ℚ) (st : RAGState) : ChatResponse × RAGState :=
  match searchCall document_ids with
  | .error e =>
      ({ question := question,
         answer := "I encountered an error while processing your question: " ++ e,
         sources := [], response_time := elapsed,
         document_ids := document_ids.getD [] }, st)
  | .ok relevant_chunks =>
    if relevant_chunks.isEmpty then
      ({ question := question,
         answer := "I couldn\u0027t find relevant information in the uploaded documents to answer your question.",
         sources := [], response_time := elapsed,
         document_ids := document_ids.getD [] }, st)
    else
      let sources := relevant_chunks.map mkSource
      let context := contextOf relevant_chunks
      match completion context with
      | .error e =>
          ({ question := question,
             answer := "I encountered an error while processing your question: " ++ e,
             sources := [], response_time := elapsed,
             document_ids := document_ids.getD [] }, st)
      | .ok answer =>
          let chat_response : ChatResponse :=
            { question := question, answer := answer, sources := sources,
              response_time := elapsed, document_ids := document_ids.getD [] }
          match document_ids with
          | none => (chat_response, st)
          | some ids =>
            if ids.isEmpty then (chat_response, st)
            else
              (chat_response,
               { st with chat_history :=
                   ids.foldl (fun h i => historyAppend h i chat_response) st.chat_history })

/-- The parsed comparison produced by gemini_service.compare_documents,
plus the documents metadata list rag_service.compare_documents attaches
afterwards (id, filename, word_count per input document). -/
structure ComparisonResult where
  similarities : List String
  differences : List String
  common_themes : List String
  documents : List (String × String × Nat)
deriving DecidableEq

/-- Gathering the stored text and filename of each requested document,
failing on the first unknown id (the lookup loop of compare_documents). -/
def gatherDocs (st : RAGState) : List String →
    Except String (List (List Char) × List String)
  | [] => .ok ([], [])
  | id :: rest =>
    match st.documents_store.find? (fun p => p.1 == id) with
    | none => .error ("Document " ++ id ++ " not found")
    | some p =>
      match gatherDocs st rest with
      | .error e => .error e
      | .ok (cs, ns) => .ok (p.2.text :: cs, p.2.document.filename :: ns)

/-- rag_service.compare_documents.  The call to
gemini_service.compare_documents is the oracle gemini; the returned Boolean
records whether that external call was made.  Fewer than two ids, or an
unknown id, raises before the call; the outer except converts every raise
into a hard error. -/
def compare_documents (st : RAGState) (document_ids : List String)
    (gemini : List (List Char) → List String → Except String ComparisonResult) :
    (Except String ComparisonResult) × Bool :=
  if document_ids.length < 2 then
    (.error "Document comparison failed: At least 2 documents are required for comparison", false)
  else
    match gatherDocs st document_ids with
    | .error e => (.error ("Document comparison failed: " ++ e), false)
    | .ok (doc_contents, doc_names) =>
      match gemini doc_contents doc_names with
      | .error e => (.error ("Document comparison failed: " ++ e), true)
      | .ok r =>
        (.ok { r with documents := document_ids.map (fun id =>
            match st.documents_store.find? (fun p => p.1 == id) with
            | some p => (id, p.2.document.filename, p.2.document.word_count)
            | none => (id, "", 0)) }, true)

/-- rag_service.get_chat_history: the dict-get with an empty default. -/
def get_chat_history (st : RAGState) (document_id : String) : List ChatResponse :=
  match st.chat_history.find? (fun p => p.1 == document_id) with
  | some p => p.2
  | none => []

/-- rag_service.clear_chat_history: delete the key when present and return
True.  The guarded del cannot raise, so the except branch returning False
is dead code and the result is always True. -/
def clear_chat_history (st : RAGState) (document_id : String) : Bool × RAGState :=
  (true, { st with chat_history :=
      st.chat_history.filter (fun p => !(p.1 == document_id)) })

/-- Whether the chunk ranges cover every character position below n. -/
def coversB (cs : List Chunk) (n : Nat) : Bool :=
  (List.range n).all (fun p => cs.any (fun c => decide (c.start_char ≤ p) && decide (p < c.end_char)))

/-- Concrete two-row ranked query result used to instantiate the retrieval
theorem. -/
def sampleRows : List QueryRow :=
  [{ content := [], document_id := "d", filename := "f", chunk_index := 0,
     page_number := none, distance := 0 },
   { content := [], document_id := "d", filename := "f", chunk_index := 1,
     page_number := none, distance := 1 }]

/-! ## Helper lemmas about the chunking loop -/

theorem mem_of_getLast_some {α : Type} {l : List α} {a : α}
    (h : l.getLast? = some a) : a ∈ l := by
  obtain ⟨hne, heq⟩ := List.mem_getLast?_eq_getLast (Option.mem_def.mpr h)
  exact heq ▸ List.getLast_mem hne

theorem pyRfind_add_one_le (t sub : List Char) (lo hi : Nat)
    (hs : 1 ≤ sub.length) : pyRfind t sub lo hi + 1 ≤ (hi : Int) := by
  unfold pyRfind
  rcases hL : (rfindCandidates t sub lo hi).getLast? with _ | i
  · simp
  · have hmem := mem_of_getLast_some hL
    have hcond := (List.mem_filter.mp hmem).2
    simp only [Bool.and_eq_true, decide_eq_true_eq] at hcond
    have : i + sub.length ≤ hi := hcond.1.2
    simp only []
    omega

theorem bestBreak_eq (text : List Char) (ss e : Nat) :
    bestBreak text ss e =
      max (max (max (max (-1) (pyRfind text ['.'] ss e)) (pyRfind text ['!'] ss e))
        (pyRfind text ['?'] ss e)) (pyRfind text ['\n', '\n'] ss e) := rfl

theorem bestBreak_add_one_le (text : List Char) (ss e : Nat) :
    bestBreak text ss e + 1 ≤ (e : Int) := by
  rw [bestBreak_eq]
  have h0 : (-1 : Int) ≤ (e : Int) - 1 := by omega
  have h1 := pyRfind_add_one_le text ['.'] ss e (by decide)
  have h2 := pyRfind_add_one_le text ['!'] ss e (by decide)
  have h3 := pyRfind_add_one_le text ['?'] ss e (by decide)
  have h4 := pyRfind_add_one_le text ['\n', '\n'] ss e (by decide)
  have hm : max (max (max (max (-1) (pyRfind text ['.'] ss e)) (pyRfind text ['!'] ss e))
      (pyRfind text ['?'] ss e)) (pyRfind text ['\n', '\n'] ss e) ≤ (e : Int) - 1 :=
    max_le (max_le (max_le (max_le h0 (by linarith)) (by linarith)) (by linarith)) (by linarith)
  linarith

theorem cutEnd_le_length (text : List Char) (s cs : Nat) :
    cutEnd text s cs ≤ text.length := by
  simp only [cutEnd]
  split_ifs with h1 h2
  · have h3 := bestBreak_add_one_le text (max (min (s + cs) text.length - 100) s)
      (min (s + cs) text.length)
    omega
  · omega
  · omega

theorem lt_cutEnd (text : List Char) (s cs : Nat) (h1 : s < text.length)
    (h2 : 1 ≤ cs) : s < cutEnd text s cs := by
  simp only [cutEnd]
  split_ifs with ha hb
  · omega
  · omega
  · omega

theorem chunkLoop_mem_bounds (text : List Char) (cs cov : Nat) (hcs : 1 ≤ cs) :
    ∀ (fuel s i : Nat), ∀ c ∈ chunkLoop text cs cov fuel s i,
      s ≤ c.start_char ∧ c.start_char < c.end_char ∧ c.end_char ≤ text.length := by
  intro fuel
  induction fuel with
  | zero => intro s i c hc; simp [chunkLoop] at hc
  | succ n ih =>
    intro s i c hc
    simp only [chunkLoop] at hc
    split at hc
    case isTrue hs =>
      split at hc
      case isTrue hskip =>
        obtain ⟨hb1, hb2, hb3⟩ := ih _ _ c hc
        have hse : s < cutEnd text s cs := lt_cutEnd text s cs hs hcs
        have hmx : cutEnd text s cs ≤ max (s + cs - cov) (cutEnd text s cs) :=
          le_max_right _ _
        exact ⟨by omega, hb2, hb3⟩
      case isFalse hemit =>
        rcases List.mem_cons.mp hc with rfl | hc'
        · exact ⟨le_refl _, lt_cutEnd text s cs hs hcs, cutEnd_le_length text s cs⟩
        · obtain ⟨hb1, hb2, hb3⟩ := ih _ _ c hc'
          have hse : s < cutEnd text s cs := lt_cutEnd text s cs hs hcs
          have hmx : cutEnd text s cs ≤ max (s + cs - cov) (cutEnd text s cs) :=
            le_max_right _ _
          exact ⟨by omega, hb2, hb3⟩
    case isFalse hs => simp at hc

theorem chunkLoop_pairwise_disjoint (text : List Char) (cs cov : Nat) (hcs : 1 ≤ cs) :
    ∀ (fuel s i : Nat),
      List.Pairwise (fun a b => a.end_char ≤ b.start_char) (chunkLoop text cs cov fuel s i) := by
  intro fuel
  induction fuel with
  | zero => intro s i; simp [chunkLoop]
  | succ n ih =>
    intro s i
    simp only [chunkLoop]
    split
    case isTrue hs =>
      split
      case isTrue hskip => exact ih _ _
      case isFalse hemit =>
        refine List.pairwise_cons.mpr ⟨?_, ih _ _⟩
        intro c hc
        have hb := (chunkLoop_mem_bounds text cs cov hcs n _ _ c hc).1
        have hmx : cutEnd text s cs ≤ max (s + cs - cov) (cutEnd text s cs) :=
          le_max_right _ _
        simp only []
        omega
    case isFalse hs => exact List.Pairwise.nil

theorem chunkLoop_indices (text : List Char) (cs cov : Nat) :
    ∀ (fuel s i : Nat),
      (chunkLoop text cs cov fuel s i).map (fun c => c.chunk_index) =
        List.range' i (chunkLoop text cs cov fuel s i).length := by
  intro fuel
  induction fuel with
  | zero => intro s i; simp [chunkLoop]
  | succ n ih =>
    intro s i
    simp only [chunkLoop]
    split
    case isTrue hs =>
      split
      case isTrue hskip => exact ih _ _
      case isFalse hemit =>
        simp only [List.map_cons, List.length_cons, List.range'_succ]
        exact congrArg _ (ih _ _)
    case isFalse hs => simp

/-! ## Claim theorems -/

/-- C3 counterexample: the claim says the single chunk produced for a text
that fits in one window has content equal to the trimmed input; on the
input consisting of a space, the letter a and a space, the code emits the
raw untrimmed text, which differs from its trimmed form. -/
theorem chunk_text_untrimmed_cex :
    chunk_text [' ', 'a', ' '] 1000 200 =
      [{ content := [' ', 'a', ' '], chunk_index := 0, start_char := 0, end_char := 3 }] ∧
    pyStrip [' ', 'a', ' '] = ['a'] ∧
    ¬ ((chunk_text [' ', 'a', ' '] 1000 200).map (fun c => c.content) =
        [pyStrip [' ', 'a', ' ']]) := by decide

/-- C3 (amended): for every text with length at most chunkSize, chunk_text
returns exactly one chunk whose content equals the input text as written
(not trimmed), with chunk_index 0, start_char 0 and end_char equal to the
text length. -/
theorem chunk_text_single (text : List Char) (chunk_size chunk_overlap : Nat)
    (h : text.length ≤ chunk_size) :
    chunk_text text chunk_size chunk_overlap =
      [{ content := text, chunk_index := 0, start_char := 0, end_char := text.length }] := by
  simp [chunk_text, h]

/-- Witness for the amended C3 theorem at the two-letter text a b. -/
theorem chunk_text_single_witness :
    (['a', 'b'] : List Char).length ≤ 1000 ∧
    chunk_text ['a', 'b'] 1000 200 =
      [{ content := ['a', 'b'], chunk_index := 0, start_char := 0, end_char := 2 }] :=
  ⟨by decide, chunk_text_single ['a', 'b'] 1000 200 (by decide)⟩

/-- C4 counterexample: with chunkSize 10 and chunkOverlap 2, on ten letters
a followed by ten spaces followed by five letters b, the middle window
strips to whitespace and is skipped, so positions 10 to 19 of the source
text are covered by no chunk range: the claimed coverage fails. -/
theorem chunk_text_coverage_cex :
    chunk_text (List.replicate 10 'a' ++ List.replicate 10 ' ' ++ List.replicate 5 'b') 10 2 =
      [{ content := List.replicate 10 'a', chunk_index := 0, start_char := 0, end_char := 10 },
       { content := List.replicate 5 'b', chunk_index := 1, start_char := 20, end_char := 25 }] ∧
    coversB (chunk_text (List.replicate 10 'a' ++ List.replicate 10 ' ' ++ List.replicate 5 'b') 10 2)
      (List.replicate 10 'a' ++ List.replicate 10 ' ' ++ List.replicate 5 'b').length = false := by
  decide

/-- C4 (amended): for every text and every configuration with positive
chunkSize, the chunk ranges produced by chunk_text lie within the source
text, start positions are monotonically non-decreasing, and the ranges of
any two chunks in order are disjoint (each chunk ends at or before the
later one starts), so any overlap is trivially confined to the configured
overlap window; the ranges need not cover the source text, since windows
whose content strips to whitespace are skipped and sentence-boundary cuts
can leave gaps. -/
theorem chunk_text_ranges (text : List Char) (cs cov : Nat) (hcs : 0 < cs) :
    (∀ c ∈ chunk_text text cs cov, c.start_char ≤ c.end_char ∧ c.end_char ≤ text.length) ∧
    List.Pairwise (fun a b => a.start_char ≤ b.start_char) (chunk_text text cs cov) ∧
    List.Pairwise (fun a b => a.end_char ≤ b.start_char) (chunk_text text cs cov) := by
  by_cases h : text.length ≤ cs
  · rw [chunk_text_single text cs cov h]
    refine ⟨?_, ?_, ?_⟩
    · intro c hc
      rcases List.mem_singleton.mp hc with rfl
      exact ⟨Nat.zero_le _, le_refl _⟩
    · exact List.pairwise_singleton _ _
    · exact List.pairwise_singleton _ _
  · simp only [chunk_text, if_neg h]
    have hd := chunkLoop_pairwise_disjoint text cs cov hcs text.length 0 0
    refine ⟨?_, ?_, hd⟩
    · intro c hc
      have hb := chunkLoop_mem_bounds text cs cov hcs _ _ _ c hc
      exact ⟨le_of_lt hb.2.1, hb.2.2⟩
    · refine List.Pairwise.imp_of_mem ?_ hd
      intro a b ha hb hab
      have h1 := chunkLoop_mem_bounds text cs cov hcs _ _ _ a ha
      omega

/-- Witness for the amended C4 theorem at a one-letter text. -/
theorem chunk_text_ranges_witness :
    0 < 1 ∧
    ((∀ c ∈ chunk_text ['a'] 1 0, c.start_char ≤ c.end_char ∧ c.end_char ≤ (['a'] : List Char).length) ∧
     List.Pairwise (fun a b => a.start_char ≤ b.start_char) (chunk_text ['a'] 1 0) ∧
     List.Pairwise (fun a b => a.end_char ≤ b.start_char) (chunk_text ['a'] 1 0)) :=
  ⟨by decide, chunk_text_ranges ['a'] 1 0 (by decide)⟩

/-- C5: for every text and every configuration with positive chunkSize
(the source loop does not terminate for chunkSize zero), the chunks
produced by chunk_text carry chunk_index values forming exactly 0..n-1 in
emission order, every chunk satisfies start_char less than or equal to
end_char, and both offsets are non-decreasing across the sequence. -/
theorem chunk_text_invariants (text : List Char) (cs cov : Nat) (hcs : 0 < cs) :
    ((chunk_text text cs cov).map (fun c => c.chunk_index) =
        List.range (chunk_text text cs cov).length) ∧
    (∀ c ∈ chunk_text text cs cov, c.start_char ≤ c.end_char) ∧
    List.Pairwise (fun a b => a.start_char ≤ b.start_char ∧ a.end_char ≤ b.end_char)
      (chunk_text text cs cov) := by
  by_cases h : text.length ≤ cs
  · rw [chunk_text_single text cs cov h]
    refine ⟨by simp [List.range_succ], ?_, List.pairwise_singleton _ _⟩
    intro c hc
    rcases List.mem_singleton.mp hc with rfl
    exact Nat.zero_le _
  · simp only [chunk_text, if_neg h]
    refine ⟨?_, ?_, ?_⟩
    · rw [chunkLoop_indices, List.range_eq_range']
    · intro c hc
      exact le_of_lt (chunkLoop_mem_bounds text cs cov hcs _ _ _ c hc).2.1
    · refine List.Pairwise.imp_of_mem ?_ (chunkLoop_pairwise_disjoint text cs cov hcs _ _ _)
      intro a b ha hb hab
      have h1 := chunkLoop_mem_bounds text cs cov hcs _ _ _ a ha
      have h2 := chunkLoop_mem_bounds text cs cov hcs _ _ _ b hb
      omega

/-- Witness for the C5 theorem at a two-letter text with chunkSize 1. -/
theorem chunk_text_invariants_witness :
    0 < 1 ∧
    (((chunk_text ['a', 'b'] 1 0).map (fun c => c.chunk_index) =
        List.range (chunk_text ['a', 'b'] 1 0).length) ∧
     (∀ c ∈ chunk_text ['a', 'b'] 1 0, c.start_char ≤ c.end_char) ∧
     List.Pairwise (fun a b => a.start_char ≤ b.start_char ∧ a.end_char ≤ b.end_char)
       (chunk_text ['a', 'b'] 1 0)) :=
  ⟨by decide, chunk_text_invariants ['a', 'b'] 1 0 (by decide)⟩

/-- C8: for every text longer than chunkSize (with chunkSize positive, as
the source loop requires for termination) and every chunkOverlap, each
chunk produced by chunk_text starts at or after the previous chunk ends:
the advance rule takes the maximum of start plus chunkSize minus
chunkOverlap and the cut end position, so adjacent chunks never share any
character and the configured overlap never materializes. -/
theorem chunk_text_adjacent_disjoint (text : List Char) (cs cov : Nat)
    (hcs : 0 < cs) (hlen : cs < text.length) :
    List.Chain' (fun a b => a.end_char ≤ b.start_char) (chunk_text text cs cov) := by
  have hne : ¬ text.length ≤ cs := by omega
  simp only [chunk_text, if_neg hne]
  exact (chunkLoop_pairwise_disjoint text cs cov hcs _ _ _).chain'

/-- Witness for the C8 theorem at a two-letter text with chunkSize 1. -/
theorem chunk_text_adjacent_disjoint_witness :
    0 < 1 ∧ 1 < (['a', 'b'] : List Char).length ∧
    List.Chain' (fun a b => a.end_char ≤ b.start_char) (chunk_text ['a', 'b'] 1 0) :=
  ⟨by decide, by decide, chunk_text_adjacent_disjoint ['a', 'b'] 1 0 (by decide) (by decide)⟩

/-- C1: for every ingest call, if text extraction yields empty text, or
chunking yields zero chunks, or the vector-index insert reports failure,
then process_document returns a hard error and the state, documents_store
and chat_history alike, is unchanged: no partial document is registered. -/
theorem process_document_atomic (st : RAGState)
    (document_id file_path filename content_type : String) (file_size : Nat)
    (text : List Char) (mp mw : Option Nat) (insertOk : Bool)
    (h : text.isEmpty = true ∨
         (chunk_text text settings_chunk_size settings_chunk_overlap).isEmpty = true ∨
         insertOk = false) :
    (∃ e, (process_document st document_id file_path filename content_type
        file_size text mp mw insertOk).1 = Except.error e) ∧
    (process_document st document_id file_path filename content_type
        file_size text mp mw insertOk).2 = st := by
  unfold process_document
  rcases h with h | h | h
  · rw [if_pos h]
    exact ⟨⟨_, rfl⟩, rfl⟩
  · by_cases ht : text.isEmpty
    · rw [if_pos ht]
      exact ⟨⟨_, rfl⟩, rfl⟩
    · rw [if_neg ht, if_pos h]
      exact ⟨⟨_, rfl⟩, rfl⟩
  · by_cases ht : text.isEmpty
    · rw [if_pos ht]
      exact ⟨⟨_, rfl⟩, rfl⟩
    · by_cases hch : (chunk_text text settings_chunk_size settings_chunk_overlap).isEmpty
      · rw [if_neg ht, if_pos hch]
        exact ⟨⟨_, rfl⟩, rfl⟩
      · rw [if_neg ht, if_neg hch, if_pos h]
        exact ⟨⟨_, rfl⟩, rfl⟩

/-- Witness for the C1 theorem: empty extracted text on the empty state. -/
theorem process_document_atomic_witness :
    (([] : List Char).isEmpty = true ∨
     (chunk_text [] settings_chunk_size settings_chunk_overlap).isEmpty = true ∨
     true = false) ∧
    ((∃ e, (process_document ⟨[], []⟩ "id" "p" "f.txt" "text/plain" 0 [] none none true).1 =
        Except.error e) ∧
     (process_document ⟨[], []⟩ "id" "p" "f.txt" "text/plain" 0 [] none none true).2 =
       ⟨[], []⟩) :=
  ⟨Or.inl rfl,
   process_document_atomic ⟨[], []⟩ "id" "p" "f.txt" "text/plain" 0 [] none none true
     (Or.inl rfl)⟩

/-- C2 counterexample: the claim says every index-reported distance in
[0, 2] yields a similarity score in [0, 1]; at distance 2, a legal cosine
distance, the computed score 1 - 2 is -1, which is negative. -/
theorem search_score_negative_cex :
    (0 : ℚ) ≤ 2 ∧ (2 : ℚ) ≤ 2 ∧
    search_similar_chunks (fun _ => Except.ok
        [{ content := [], document_id := "d", filename := "f", chunk_index := 0,
           page_number := none, distance := 2 }]) none =
      [{ content := [], document_id := "d", filename := "f", chunk_index := 0,
         page_number := none, similarity_score := -1 }] ∧
    ¬ ((0 : ℚ) ≤ (-1 : ℚ)) := by
  refine ⟨by norm_num, by norm_num, ?_, by norm_num⟩
  show [formatChunk _] = _
  simp only [formatChunk, List.cons.injEq, and_true, RetrievedChunk.mk.injEq]
  norm_num

/-- C2 (amended): for every query, when the index call returns at most topK
rows ranked by non-decreasing distance, search_similar_chunks returns at
most topK chunks sorted by descending similarity score; for every row whose
reported distance lies in [0, 2], the computed score 1 - distance lies in
[-1, 1]; and when the index call raises, the result is empty. -/
theorem search_similar_chunks_spec (rows : List QueryRow)
    (ids : Option (List String)) (k : Nat) (hlen : rows.length ≤ k)
    (hsort : List.Pairwise (fun a b => a.distance ≤ b.distance) rows) :
    (search_similar_chunks (fun _ => Except.ok rows) ids).length ≤ k ∧
    List.Pairwise (fun a b => b.similarity_score ≤ a.similarity_score)
      (search_similar_chunks (fun _ => Except.ok rows) ids) ∧
    (∀ r ∈ rows, 0 ≤ r.distance → r.distance ≤ 2 →
      -1 ≤ (formatChunk r).similarity_score ∧ (formatChunk r).similarity_score ≤ 1) ∧
    (∀ e, search_similar_chunks (fun _ => Except.error e) ids = []) := by
  refine ⟨?_, ?_, ?_, fun e => rfl⟩
  · show (rows.map formatChunk).length ≤ k
    simpa using hlen
  · show List.Pairwise _ (rows.map formatChunk)
    rw [List.pairwise_map]
    refine hsort.imp ?_
    intro a b hab
    simp only [formatChunk]
    linarith
  · intro r _ h0 h2
    constructor
    · simp only [formatChunk]
      linarith
    · simp only [formatChunk]
      linarith

/-- Witness for the amended C2 theorem at a two-row ranked result. -/
theorem search_similar_chunks_spec_witness :
    ((search_similar_chunks (fun _ => Except.ok sampleRows) none).length ≤ 2 ∧
     List.Pairwise (fun a b => b.similarity_score ≤ a.similarity_score)
       (search_similar_chunks (fun _ => Except.ok sampleRows) none) ∧
     (∀ r ∈ sampleRows, 0 ≤ r.distance → r.distance ≤ 2 →
        -1 ≤ (formatChunk r).similarity_score ∧ (formatChunk r).similarity_score ≤ 1) ∧
     (∀ e, search_similar_chunks (fun _ => Except.error e) none = [])) :=
  search_similar_chunks_spec sampleRows none 2 (by decide) (by simp [sampleRows])

/-- C6: for every question, if the search call raises, or the search
returns chunks and the completion call raises, ask_question still returns
a ChatResponse (the model is a total function, mirroring the outer
try/except) carrying the apologetic error answer, empty sources and the
elapsed time, and leaves the state unchanged; the failure is never
propagated. -/
theorem ask_question_degrades (question : String)
    (document_ids : Option (List String))
    (searchCall : Option (List String) → Except String (List RetrievedChunk))
    (completion : List Char → Except String String) (elapsed : ℚ) (st : RAGState)
    (h : (∃ e, searchCall document_ids = Except.error e) ∨
         (∃ chunks e, searchCall document_ids = Except.ok chunks ∧
            chunks.isEmpty = false ∧ completion (contextOf chunks) = Except.error e)) :
    (ask_question question document_ids searchCall completion elapsed st).2 = st ∧
    (ask_question question document_ids searchCall completion elapsed st).1.sources = [] ∧
    (∃ e, (ask_question question document_ids searchCall completion elapsed st).1.answer =
        "I encountered an error while processing your question: " ++ e) ∧
    (ask_question question document_ids searchCall completion elapsed st).1.response_time =
      elapsed := by
  rcases h with ⟨e, he⟩ | ⟨chunks, e, hs, hne, hc⟩
  · unfold ask_question
    rw [he]
    exact ⟨rfl, rfl, ⟨e, rfl⟩, rfl⟩
  · unfold ask_question
    rw [hs]
    simp only [hne, Bool.false_eq_true, if_false, hc]
    exact ⟨by trivial, by trivial, ⟨e, by trivial⟩, by trivial⟩

/-- Witness for the C6 theorem: the search call raises. -/
theorem ask_question_degrades_witness :
    ((ask_question "q" none (fun _ => Except.error "boom")
        (fun _ => Except.ok "a") 0 ⟨[], []⟩).2 = ⟨[], []⟩ ∧
     (ask_question "q" none (fun _ => Except.error "boom")
        (fun _ => Except.ok "a") 0 ⟨[], []⟩).1.sources = [] ∧
     (∃ e, (ask_question "q" none (fun _ => Except.error "boom")
        (fun _ => Except.ok "a") 0 ⟨[], []⟩).1.answer =
          "I encountered an error while processing your question: " ++ e) ∧
     (ask_question "q" none (fun _ => Except.error "boom")
        (fun _ => Except.ok "a") 0 ⟨[], []⟩).1.response_time = 0) :=
  ask_question_degrades "q" none (fun _ => Except.error "boom")
    (fun _ => Except.ok "a") 0 ⟨[], []⟩ (Or.inl ⟨"boom", rfl⟩)

/-- C7: for every list of document ids with fewer than two elements,
compare_documents returns a hard validation error and the generative
completion service is never invoked (the call flag stays false). -/
theorem compare_documents_validates (st : RAGState) (ids : List String)
    (gemini : List (List Char) → List String → Except String ComparisonResult)
    (h : ids.length < 2) :
    (∃ e, (compare_documents st ids gemini).1 = Except.error e) ∧
    (compare_documents st ids gemini).2 = false := by
  unfold compare_documents
  rw [if_pos h]
  exact ⟨⟨_, rfl⟩, rfl⟩

/-- Witness for the C7 theorem at the single-id list. -/
theorem compare_documents_validates_witness :
    (["a"] : List String).length < 2 ∧
    ((∃ e, (compare_documents ⟨[], []⟩ ["a"]
        (fun _ _ => Except.ok ⟨[], [], [], []⟩)).1 = Except.error e) ∧
     (compare_documents ⟨[], []⟩ ["a"]
        (fun _ _ => Except.ok ⟨[], [], [], []⟩)).2 = false) :=
  ⟨by decide,
   compare_documents_validates ⟨[], []⟩ ["a"]
     (fun _ _ => Except.ok ⟨[], [], [], []⟩) (by decide)⟩

/-- C9: calling ask_question with an empty document-id list behaves
identically to omitting the list: the where-clause is empty in both cases
so the similarity search is unfiltered, the whole call (response and
state) is the same, the response scope is the empty list, and no chat
history entry is appended in either case. -/
theorem ask_question_empty_ids (question : String)
    (queryExec : Option (List String) → Except String (List QueryRow))
    (completion : List Char → Except String String) (elapsed : ℚ) (st : RAGState) :
    where_clause (some []) = where_clause none ∧
    search_similar_chunks queryExec (some []) = search_similar_chunks queryExec none ∧
    ask_question question (some [])
        (fun ids => Except.ok (search_similar_chunks queryExec ids)) completion elapsed st =
      ask_question question none
        (fun ids => Except.ok (search_similar_chunks queryExec ids)) completion elapsed st ∧
    (ask_question question (some [])
        (fun ids => Except.ok (search_similar_chunks queryExec ids))
        completion elapsed st).1.document_ids = [] ∧
    (ask_question question (some [])
        (fun ids => Except.ok (search_similar_chunks queryExec ids))
        completion elapsed st).2 = st := by
  refine ⟨rfl, rfl, rfl, ?_, ?_⟩
  · by_cases h1 : (search_similar_chunks queryExec (some [])).isEmpty
    · simp [ask_question, h1]
    · rcases hc : completion (contextOf (search_similar_chunks queryExec (some []))) with e | ans
      · simp [ask_question, h1, hc]
      · simp [ask_question, h1, hc]
  · by_cases h1 : (search_similar_chunks queryExec (some [])).isEmpty
    · simp [ask_question, h1]
    · rcases hc : completion (contextOf (search_similar_chunks queryExec (some []))) with e | ans
      · simp [ask_question, h1, hc]
      · simp [ask_question, h1, hc]

/-- C10: for every state and every document id, including ids never seen
before, clear_chat_history returns True, afterwards get_chat_history for
that id returns the empty list, and clearing a second time does not change
the outcome (the operation is idempotent). -/
theorem clear_chat_history_spec (st : RAGState) (document_id : String) :
    (clear_chat_history st document_id).1 = true ∧
    get_chat_history (clear_chat_history st document_id).2 document_id = [] ∧
    clear_chat_history (clear_chat_history st document_id).2 document_id =
      clear_chat_history st document_id := by
  refine ⟨rfl, ?_, ?_⟩
  · have h : ((st.chat_history.filter (fun p => !(p.1 == document_id))).find?
        (fun p => p.1 == document_id)) = none := by
      rw [List.find?_eq_none]
      intro x hx
      have hx2 := (List.mem_filter.mp hx).2
      simp only [Bool.not_eq_true'] at hx2
      simp [hx2]
    simp [get_chat_history, clear_chat_history, h]
  · simp only [clear_chat_history, Prod.mk.injEq, true_and, RAGState.mk.injEq]
    rw [List.filter_filter]
    exact List.filter_congr (fun x _ => Bool.and_self _)

end IDAS
